import Mathlib

/-!
Verification of the plant-voice backend's analysis core against its
specification.  The Python sources are shallowly embedded: sensor values and
thresholds become rationals, the threshold tables of
`app/services/growth_phase.py` become a total function on finite enums, and
each analysis function becomes a computable Lean definition mirroring the
source control flow.  Python's `round` (banker's rounding, half to even) is
modelled exactly on `ℚ`.
-/

/-- The five growth phases of `PHASE_DATA` in `growth_phase.py`. -/
inductive Phase
  | germination | seedling | vegetative | flowering | fruiting
deriving DecidableEq, Repr

/-- The four active sensor dimensions (the keys of `sensor_key_map`). -/
inductive Sensor
  | temperature | humidity | light | soil_moisture
deriving DecidableEq, Repr

/-- One threshold band record, `{critical_low, low, optimal_min, optimal_max,
high, critical_high}` (the `unit` string is not load-bearing). -/
structure Thresholds where
  critical_low : ℚ
  low : ℚ
  optimal_min : ℚ
  optimal_max : ℚ
  high : ℚ
  critical_high : ℚ
deriving DecidableEq, Repr

/-- The ordering invariant of the spec's data model (§3). -/
def Ordered (t : Thresholds) : Prop :=
  t.critical_low ≤ t.low ∧ t.low ≤ t.optimal_min ∧ t.optimal_min ≤ t.optimal_max
    ∧ t.optimal_max ≤ t.high ∧ t.high ≤ t.critical_high

instance (t : Thresholds) : Decidable (Ordered t) := by
  unfold Ordered; infer_instance

/-- The nested threshold literals of `PHASE_DATA` in `growth_phase.py`. -/
def PHASE_DATA : Phase → Sensor → Thresholds
  | .germination, .temperature => ⟨15, 20, 25, 30, 35, 40⟩
  | .germination, .humidity => ⟨30, 50, 70, 90, 95, 100⟩
  | .germination, .light => ⟨0, 0, 0, 10000, 50000, 100000⟩
  | .germination, .soil_moisture => ⟨10, 20, 50, 80, 90, 100⟩
  | .seedling, .temperature => ⟨10, 15, 18, 30, 35, 40⟩
  | .seedling, .humidity => ⟨30, 50, 70, 90, 95, 100⟩
  | .seedling, .light => ⟨0, 1000, 10000, 50000, 80000, 100000⟩
  | .seedling, .soil_moisture => ⟨10, 20, 50, 70, 90, 100⟩
  | .vegetative, .temperature => ⟨10, 15, 22, 30, 35, 40⟩
  | .vegetative, .humidity => ⟨30, 40, 60, 70, 80, 90⟩
  | .vegetative, .light => ⟨5000, 10000, 25000, 80000, 100000, 120000⟩
  | .vegetative, .soil_moisture => ⟨10, 30, 50, 80, 90, 100⟩
  | .flowering, .temperature => ⟨15, 18, 22, 32, 35, 40⟩
  | .flowering, .humidity => ⟨30, 40, 60, 70, 80, 90⟩
  | .flowering, .light => ⟨5000, 10000, 25000, 80000, 100000, 120000⟩
  | .flowering, .soil_moisture => ⟨10, 30, 50, 80, 90, 100⟩
  | .fruiting, .temperature => ⟨15, 18, 22, 32, 35, 40⟩
  | .fruiting, .humidity => ⟨30, 40, 60, 70, 80, 90⟩
  | .fruiting, .light => ⟨5000, 10000, 25000, 80000, 100000, 120000⟩
  | .fruiting, .soil_moisture => ⟨10, 30, 50, 80, 90, 100⟩

/-- Classification statuses of `ClassificationResult`. -/
inductive Status
  | critical_low | low | slightly_low | optimal | slightly_high | high | critical_high
deriving DecidableEq, Repr

/-- Severities of `ClassificationResult`. -/
inductive Severity
  | normal | warning | critical
deriving DecidableEq, Repr

/-- The general-case threshold chain of `analyze_sensor_for_phase`
(`growth_phase.py` lines 377-421), run for every sensor/phase combination
except light during germination. -/
def classifyGeneral (t : Thresholds) (value : ℚ) : Status × Severity :=
  if value ≤ t.critical_low then (.critical_low, .critical)
  else if value ≤ t.low then (.low, .warning)
  else if value ≥ t.critical_high then (.critical_high, .critical)
  else if value ≥ t.high then (.high, .warning)
  else if t.optimal_min ≤ value ∧ value ≤ t.optimal_max then (.optimal, .normal)
  else if value < t.optimal_min then (.slightly_low, .warning)
  else (.slightly_high, .warning)

/-- The special branch of `analyze_sensor_for_phase` for light during
germination (`growth_phase.py` lines 355-375): lower is better. -/
def classifyLightGermination (t : Thresholds) (value : ℚ) : Status × Severity :=
  if value ≤ t.optimal_max then (.optimal, .normal)
  else if value ≤ t.high then (.slightly_high, .warning)
  else (.high, .warning)

/-- `analyze_sensor_for_phase` abstracted over the thresholds record it reads
(the source obtains it from the current phase's `PHASE_DATA` entry). -/
def classifyWith (t : Thresholds) (sensor : Sensor) (phase : Phase) (value : ℚ) :
    Status × Severity :=
  if sensor = .light ∧ phase = .germination then classifyLightGermination t value
  else classifyGeneral t value

/-- `analyze_sensor_for_phase(sensor_name, value)` with the current phase made
an explicit argument (the source reads it from the phase file; the thresholds
are the current phase's `PHASE_DATA` record). -/
def analyze_sensor_for_phase (phase : Phase) (sensor : Sensor) (value : ℚ) :
    Status × Severity :=
  classifyWith (PHASE_DATA phase sensor) sensor phase value

/-- `GrowthComparator._get_status` (`growth_comparator.py` lines 282-313). -/
def get_status (value : ℚ) (t : Thresholds) (sensor : Sensor) (phase : Phase) : Status :=
  if sensor = .light ∧ phase = .germination then
    if value ≤ t.optimal_max then .optimal
    else if value ≤ t.high then .slightly_high
    else .high
  else if value ≤ t.critical_low then .critical_low
  else if value ≤ t.low then .low
  else if value < t.optimal_min then .slightly_low
  else if value ≤ t.optimal_max then .optimal
  else if value < t.high then .slightly_high
  else if value < t.critical_high then .high
  else .critical_high

/-- The spec's §4.1 general-case precedence rules, written from the spec's own
numbered list (1. `value ≤ critical_low` … 7. else `slightly_high`). -/
def specPrecedence (t : Thresholds) (value : ℚ) : Status × Severity :=
  if value ≤ t.critical_low then (.critical_low, .critical)
  else if value ≤ t.low then (.low, .warning)
  else if value ≥ t.critical_high then (.critical_high, .critical)
  else if value ≥ t.high then (.high, .warning)
  else if t.optimal_min ≤ value ∧ value ≤ t.optimal_max then (.optimal, .normal)
  else if value < t.optimal_min then (.slightly_low, .warning)
  else (.slightly_high, .warning)

/-- Status rank used by the spec's monotonicity property (§8):
optimal < slightly < low/high < critical. -/
def rank : Status → ℕ
  | .optimal => 0
  | .slightly_low => 1
  | .slightly_high => 1
  | .low => 2
  | .high => 2
  | .critical_low => 3
  | .critical_high => 3

/-- Distance of a value from the optimal band `[optimal_min, optimal_max]`. -/
def distOpt (t : Thresholds) (value : ℚ) : ℚ :=
  if value < t.optimal_min then t.optimal_min - value
  else if t.optimal_max < value then value - t.optimal_max
  else 0

/-- Strict separation of the threshold bands; it holds for every `PHASE_DATA`
record outside the light/germination special case. -/
def StrictOrd (t : Thresholds) : Prop :=
  t.critical_low < t.low ∧ t.low < t.optimal_min ∧ t.optimal_min ≤ t.optimal_max
    ∧ t.optimal_max < t.high ∧ t.high < t.critical_high

instance (t : Thresholds) : Decidable (StrictOrd t) := by
  unfold StrictOrd; infer_instance

lemma PHASE_DATA_strictOrd (phase : Phase) (sensor : Sensor)
    (h : ¬(sensor = Sensor.light ∧ phase = Phase.germination)) :
    StrictOrd (PHASE_DATA phase sensor) := by
  cases phase <;> cases sensor <;> revert h <;> decide

lemma ite_and_eq {α : Type} (a b : Prop) [Decidable a] [Decidable b] (x y : α) :
    (if a ∧ b then x else y) = if a then (if b then x else y) else y := by
  by_cases ha : a <;> by_cases hb : b <;> simp [ha, hb]

set_option maxHeartbeats 1000000 in
lemma rank_mono_above (t : Thresholds) (hs : StrictOrd t) (v1 v2 : ℚ)
    (ha : t.optimal_max ≤ v1) (hb : v1 ≤ v2) :
    rank (classifyGeneral t v1).1 ≤ rank (classifyGeneral t v2).1 := by
  obtain ⟨h1, h2, h3, h4, h5⟩ := hs
  simp only [classifyGeneral, ite_and_eq]
  split_ifs <;> first | decide | (exfalso; linarith)

set_option maxHeartbeats 1000000 in
lemma rank_mono_below (t : Thresholds) (hs : StrictOrd t) (v1 v2 : ℚ)
    (ha : v2 ≤ v1) (hb : v1 ≤ t.optimal_min) :
    rank (classifyGeneral t v1).1 ≤ rank (classifyGeneral t v2).1 := by
  obtain ⟨h1, h2, h3, h4, h5⟩ := hs
  simp only [classifyGeneral, ite_and_eq]
  split_ifs <;> first | decide | (exfalso; linarith)

lemma rank_mono_lightGerm_above (t : Thresholds) (v1 v2 : ℚ) (hb : v1 ≤ v2) :
    rank (classifyLightGermination t v1).1 ≤ rank (classifyLightGermination t v2).1 := by
  unfold classifyLightGermination
  split_ifs <;> first | decide | (exfalso; linarith)

lemma rank_mono_lightGerm_below (t : Thresholds) (hom : t.optimal_min ≤ t.optimal_max)
    (v1 v2 : ℚ) (hb : v1 ≤ t.optimal_min) :
    rank (classifyLightGermination t v1).1 ≤ rank (classifyLightGermination t v2).1 := by
  unfold classifyLightGermination
  split_ifs <;> first | decide | (exfalso; linarith)

/-- C1: outside the light/germination special case, `analyze_sensor_for_phase`
follows the spec's §4.1 precedence exactly (on thresholds that do satisfy the
ordering invariant), and `value = critical_low` classifies as `critical_low`. -/
theorem claim1_general_precedence (phase : Phase) (sensor : Sensor)
    (hns : ¬(sensor = Sensor.light ∧ phase = Phase.germination)) (value : ℚ) :
    Ordered (PHASE_DATA phase sensor)
    ∧ analyze_sensor_for_phase phase sensor value
        = specPrecedence (PHASE_DATA phase sensor) value
    ∧ (value = (PHASE_DATA phase sensor).critical_low →
        analyze_sensor_for_phase phase sensor value
          = (Status.critical_low, Severity.critical)) := by
  refine ⟨?_, ?_, ?_⟩
  · cases phase <;> cases sensor <;> decide
  · unfold analyze_sensor_for_phase classifyWith
    rw [if_neg hns]
    rfl
  · intro hv
    unfold analyze_sensor_for_phase classifyWith
    rw [if_neg hns]
    unfold classifyGeneral
    rw [hv, if_pos le_rfl]

/-- Witness for C1 at phase germination, sensor temperature, value 15
(the `critical_low` boundary). -/
theorem claim1_general_precedence_witness :
    Ordered (PHASE_DATA Phase.germination Sensor.temperature)
    ∧ analyze_sensor_for_phase Phase.germination Sensor.temperature 15
        = specPrecedence (PHASE_DATA Phase.germination Sensor.temperature) 15
    ∧ (15 = (PHASE_DATA Phase.germination Sensor.temperature).critical_low →
        analyze_sensor_for_phase Phase.germination Sensor.temperature 15
          = (Status.critical_low, Severity.critical)) :=
  claim1_general_precedence Phase.germination Sensor.temperature (by decide) 15

/-- C2: for light during germination both `analyze_sensor_for_phase` and
`_get_status` classify by the inverted lower-is-better rule, and neither ever
returns `critical_high`. -/
theorem claim2_light_germination (v : ℚ) :
    (v ≤ (PHASE_DATA Phase.germination Sensor.light).optimal_max →
      analyze_sensor_for_phase Phase.germination Sensor.light v
          = (Status.optimal, Severity.normal)
      ∧ get_status v (PHASE_DATA Phase.germination Sensor.light)
          Sensor.light Phase.germination = Status.optimal)
    ∧ ((PHASE_DATA Phase.germination Sensor.light).optimal_max < v →
        v ≤ (PHASE_DATA Phase.germination Sensor.light).high →
      analyze_sensor_for_phase Phase.germination Sensor.light v
          = (Status.slightly_high, Severity.warning)
      ∧ get_status v (PHASE_DATA Phase.germination Sensor.light)
          Sensor.light Phase.germination = Status.slightly_high)
    ∧ ((PHASE_DATA Phase.germination Sensor.light).high < v →
      analyze_sensor_for_phase Phase.germination Sensor.light v
          = (Status.high, Severity.warning)
      ∧ get_status v (PHASE_DATA Phase.germination Sensor.light)
          Sensor.light Phase.germination = Status.high)
    ∧ (analyze_sensor_for_phase Phase.germination Sensor.light v).1 ≠ Status.critical_high
    ∧ get_status v (PHASE_DATA Phase.germination Sensor.light)
        Sensor.light Phase.germination ≠ Status.critical_high := by
  have hsp : Sensor.light = Sensor.light ∧ Phase.germination = Phase.germination := ⟨rfl, rfl⟩
  unfold analyze_sensor_for_phase classifyWith classifyLightGermination get_status
  rw [if_pos hsp, if_pos hsp]
  refine ⟨?_, ?_, ?_, ?_, ?_⟩
  · intro h; rw [if_pos h, if_pos h]; exact ⟨rfl, rfl⟩
  · intro h1 h2
    rw [if_neg (not_le.mpr h1), if_pos h2, if_neg (not_le.mpr h1), if_pos h2]
    exact ⟨rfl, rfl⟩
  · intro h
    have h1 : ¬ v ≤ (PHASE_DATA Phase.germination Sensor.light).optimal_max := by
      simp only [PHASE_DATA] at h ⊢; linarith
    rw [if_neg h1, if_neg (not_le.mpr h), if_neg h1, if_neg (not_le.mpr h)]
    exact ⟨rfl, rfl⟩
  · split_ifs <;> simp
  · split_ifs <;> simp

/-- C3 counterexample: on a thresholds record satisfying the ordering
invariant with `optimal_max = high`, `_get_status` and the classifier
disagree at `value = optimal_max`. -/
theorem claim3_counterexample :
    Ordered ⟨0, 0, 0, 10, 10, 20⟩
    ∧ get_status 10 ⟨0, 0, 0, 10, 10, 20⟩ Sensor.temperature Phase.germination
        = Status.optimal
    ∧ (classifyWith ⟨0, 0, 0, 10, 10, 20⟩ Sensor.temperature Phase.germination 10).1
        = Status.high
    ∧ get_status 10 ⟨0, 0, 0, 10, 10, 20⟩ Sensor.temperature Phase.germination
        ≠ (classifyWith ⟨0, 0, 0, 10, 10, 20⟩ Sensor.temperature Phase.germination 10).1 := by
  decide

/-- C3 (amended): under the ordering invariant strengthened by
`optimal_max < high`, `_get_status` agrees with the classifier's status on
every value, sensor and phase, including the germination/light special case. -/
theorem claim3_status_agreement (v : ℚ) (t : Thresholds) (sensor : Sensor)
    (phase : Phase) (hord : Ordered t) (hsep : t.optimal_max < t.high) :
    get_status v t sensor phase = (classifyWith t sensor phase v).1 := by
  obtain ⟨h1, h2, h3, h4, h5⟩ := hord
  unfold get_status classifyWith classifyLightGermination
  by_cases hsp : sensor = Sensor.light ∧ phase = Phase.germination
  · rw [if_pos hsp, if_pos hsp]
    split_ifs <;> rfl
  · rw [if_neg hsp, if_neg hsp]
    simp only [classifyGeneral, ite_and_eq]
    split_ifs <;> first | rfl | (exfalso; linarith)

/-- Witness for C3's amended theorem at the germination temperature
thresholds and value 27. -/
theorem claim3_status_agreement_witness :
    get_status 27 (PHASE_DATA Phase.germination Sensor.temperature)
        Sensor.temperature Phase.germination
      = (classifyWith (PHASE_DATA Phase.germination Sensor.temperature)
          Sensor.temperature Phase.germination 27).1 :=
  claim3_status_agreement 27 (PHASE_DATA Phase.germination Sensor.temperature)
    Sensor.temperature Phase.germination (by decide) (by decide)

/-- C4 counterexample: for germination humidity, the value 95 is nearer the
optimal band than 60 yet ranks strictly worse (`high` vs `slightly_low`), so
status rank is not monotone in distance from the optimal band. -/
theorem claim4_counterexample :
    distOpt (PHASE_DATA Phase.germination Sensor.humidity) 95
        < distOpt (PHASE_DATA Phase.germination Sensor.humidity) 60
    ∧ rank (analyze_sensor_for_phase Phase.germination Sensor.humidity 60).1
        < rank (analyze_sensor_for_phase Phase.germination Sensor.humidity 95).1 := by
  refine ⟨by norm_num [distOpt, PHASE_DATA], by decide⟩

/-- C4 (amended): on each side of the optimal band separately, moving a value
further away never improves its status rank, for every sensor and phase. -/
theorem claim4_same_side_monotone (phase : Phase) (sensor : Sensor) (v1 v2 : ℚ) :
    ((PHASE_DATA phase sensor).optimal_max ≤ v1 → v1 ≤ v2 →
      rank (analyze_sensor_for_phase phase sensor v1).1
        ≤ rank (analyze_sensor_for_phase phase sensor v2).1)
    ∧ (v2 ≤ v1 → v1 ≤ (PHASE_DATA phase sensor).optimal_min →
      rank (analyze_sensor_for_phase phase sensor v1).1
        ≤ rank (analyze_sensor_for_phase phase sensor v2).1) := by
  unfold analyze_sensor_for_phase classifyWith
  by_cases hsp : sensor = Sensor.light ∧ phase = Phase.germination
  · simp only [if_pos hsp]
    obtain ⟨hs, hp⟩ := hsp
    subst hs; subst hp
    exact ⟨fun _ hb => rank_mono_lightGerm_above _ v1 v2 hb,
      fun _ hb => rank_mono_lightGerm_below _ (by decide) v1 v2 hb⟩
  · simp only [if_neg hsp]
    have hs := PHASE_DATA_strictOrd phase sensor hsp
    exact ⟨fun ha hb => rank_mono_above _ hs v1 v2 ha hb,
      fun ha hb => rank_mono_below _ hs v1 v2 ha hb⟩

/-- Python's built-in `round` to an integer, modelled exactly on `ℚ`:
nearest integer, ties to even (banker's rounding). -/
def pyround (x : ℚ) : ℤ :=
  if x - ⌊x⌋ < 1/2 then ⌊x⌋
  else if 1/2 < x - ⌊x⌋ then ⌊x⌋ + 1
  else if ⌊x⌋ % 2 = 0 then ⌊x⌋ else ⌊x⌋ + 1

/-- Python's `round(x, 1)`. -/
def round1 (x : ℚ) : ℚ := (pyround (x * 10) : ℚ) / 10

/-- Python's `round(x, 2)`. -/
def round2 (x : ℚ) : ℚ := (pyround (x * 100) : ℚ) / 100

lemma pyround_intCast (n : ℤ) : pyround (n : ℚ) = n := by
  unfold pyround
  rw [Int.floor_intCast]
  norm_num

lemma round1_intCast (n : ℤ) : round1 (n : ℚ) = n := by
  unfold round1
  rw [show ((n : ℚ) * 10) = ((n * 10 : ℤ) : ℚ) by push_cast; ring, pyround_intCast]
  push_cast
  ring

lemma pyround_le {x : ℚ} {n : ℤ} (h : x ≤ n) : pyround x ≤ n := by
  have hfl : ⌊x⌋ ≤ n := by
    calc ⌊x⌋ ≤ ⌊(n : ℚ)⌋ := Int.floor_le_floor h
    _ = n := Int.floor_intCast n
  have hfx : (⌊x⌋ : ℚ) ≤ x := Int.floor_le x
  unfold pyround
  split_ifs with h1 h2 h3
  · exact hfl
  all_goals {
    have hr : (0 : ℚ) < x - ⌊x⌋ := by linarith
    have hlq : (⌊x⌋ : ℚ) < n := by linarith
    have : ⌊x⌋ < n := by exact_mod_cast hlq
    omega }

lemma le_pyround {x : ℚ} {n : ℤ} (h : (n : ℚ) ≤ x) : n ≤ pyround x := by
  have hfl : n ≤ ⌊x⌋ := Int.le_floor.mpr h
  unfold pyround
  split_ifs <;> omega

lemma abs_pyround_sub (x : ℚ) : |(pyround x : ℚ) - x| ≤ 1/2 := by
  have hfx : (⌊x⌋ : ℚ) ≤ x := Int.floor_le x
  have hfx1 : x < (⌊x⌋ : ℚ) + 1 := Int.lt_floor_add_one x
  unfold pyround
  split_ifs <;> rw [abs_le] <;> constructor <;> push_cast <;> linarith

/-- `GDD_BASE_TEMP` of `growth_comparator.py`. -/
def GDD_BASE_TEMP : ℚ := 10

/-- `GrowthComparator.calculate_gdd`. -/
def calculate_gdd (temp_avg : ℚ) : ℚ := max 0 (temp_avg - GDD_BASE_TEMP)

/-- `GrowthComparator.calculate_accumulated_gdd`. -/
def calculate_accumulated_gdd (daily_temps : List ℚ) : ℚ :=
  round1 (daily_temps.foldl (fun total temp => total + calculate_gdd temp) 0)

/-- `GrowthComparator.get_expected_gdd_for_day` (the `phase` argument is
accepted and ignored; `avg_daily_gdd = 17`). -/
def get_expected_gdd_for_day (day : ℕ) (phase : Phase) : ℚ := day * 17

/-- The `gdd_progress` comparison dimension of
`GrowthComparator.compare_with_benchmark` (`growth_comparator.py` lines
165-182). -/
structure GddProgress where
  accumulated : ℚ
  expected : ℚ
  deviation_percent : ℚ
  status : String
deriving DecidableEq, Repr

def gdd_progress_comparison (experiment_day : ℕ) (phase : Phase)
    (accumulated_gdd : ℚ) : GddProgress :=
  let expected_gdd := get_expected_gdd_for_day experiment_day phase
  let gdd_deviation :=
    if 0 < expected_gdd then round1 ((accumulated_gdd - expected_gdd) / expected_gdd * 100)
    else 0
  let gdd_status :=
    if -10 ≤ gdd_deviation then "on_track"
    else if -25 ≤ gdd_deviation then "slightly_behind"
    else "behind"
  ⟨accumulated_gdd, round1 expected_gdd, gdd_deviation, gdd_status⟩

lemma foldl_add_map (f : ℚ → ℚ) : ∀ (l : List ℚ) (a : ℚ),
    l.foldl (fun total temp => total + f temp) a = a + (l.map f).sum := by
  intro l
  induction l with
  | nil => intro a; simp
  | cons x xs ih =>
    intro a
    simp only [List.foldl_cons, List.map_cons, List.sum_cons]
    rw [ih]
    ring

lemma gddStatusCases (dv : ℚ) :
    ((if -10 ≤ dv then "on_track" else if -25 ≤ dv then "slightly_behind" else "behind")
        = "on_track" ↔ -10 ≤ dv)
    ∧ ((if -10 ≤ dv then "on_track" else if -25 ≤ dv then "slightly_behind" else "behind")
        = "slightly_behind" ↔ -25 ≤ dv ∧ dv < -10)
    ∧ ((if -10 ≤ dv then "on_track" else if -25 ≤ dv then "slightly_behind" else "behind")
        = "behind" ↔ dv < -25) := by
  split_ifs with h1 h2
  · refine ⟨⟨fun _ => h1, fun _ => rfl⟩,
      ⟨fun h => absurd h (by decide), fun h => absurd h1 (not_le.mpr h.2)⟩,
      ⟨fun h => absurd h (by decide), fun h => absurd h1 (not_le.mpr (by linarith))⟩⟩
  · push_neg at h1
    refine ⟨⟨fun h => absurd h (by decide), fun h => absurd h1 (not_lt.mpr h)⟩,
      ⟨fun _ => ⟨h2, h1⟩, fun _ => rfl⟩,
      ⟨fun h => absurd h (by decide), fun h => absurd h2 (not_le.mpr h)⟩⟩
  · push_neg at h1 h2
    refine ⟨⟨fun h => absurd h (by decide), fun h => absurd h1 (not_lt.mpr h)⟩,
      ⟨fun h => absurd h (by decide), fun h => absurd h.1 (not_le.mpr h2)⟩,
      ⟨fun _ => h2, fun _ => rfl⟩⟩

/-- C8: the GDD pipeline: `gdd(t) = max(0, t-10)`, the accumulated sum with
the spec's worked example, phase-independence of the expected GDD, and the
deviation/status rules of the `gdd_progress` dimension. -/
theorem claim8_gdd_pipeline :
    (∀ t : ℚ, calculate_gdd t = max 0 (t - 10))
    ∧ calculate_accumulated_gdd [8, 12, 15] = 7
    ∧ (∀ l : List ℚ,
        calculate_accumulated_gdd l = round1 ((l.map (fun t => max 0 (t - 10))).sum))
    ∧ (∀ (d : ℕ) (p q : Phase), get_expected_gdd_for_day d p = d * 17
        ∧ get_expected_gdd_for_day d p = get_expected_gdd_for_day d q)
    ∧ (∀ (d : ℕ) (p : Phase) (acc : ℚ),
        (gdd_progress_comparison d p acc).accumulated = acc
        ∧ (gdd_progress_comparison d p acc).expected = d * 17
        ∧ (0 < d → (gdd_progress_comparison d p acc).deviation_percent
            = round1 ((acc - d * 17) / (d * 17) * 100))
        ∧ (d = 0 → (gdd_progress_comparison d p acc).deviation_percent = 0)
        ∧ ((gdd_progress_comparison d p acc).status = "on_track"
            ↔ -10 ≤ (gdd_progress_comparison d p acc).deviation_percent)
        ∧ ((gdd_progress_comparison d p acc).status = "slightly_behind"
            ↔ -25 ≤ (gdd_progress_comparison d p acc).deviation_percent
              ∧ (gdd_progress_comparison d p acc).deviation_percent < -10)
        ∧ ((gdd_progress_comparison d p acc).status = "behind"
            ↔ (gdd_progress_comparison d p acc).deviation_percent < -25)) := by
  refine ⟨fun t => rfl, ?_, ?_, fun d p q => ⟨rfl, rfl⟩, ?_⟩
  · have h8 : calculate_gdd 8 = 0 := by
      unfold calculate_gdd GDD_BASE_TEMP
      rw [max_eq_left (by norm_num)]
    have h12 : calculate_gdd 12 = 2 := by
      unfold calculate_gdd GDD_BASE_TEMP
      rw [max_eq_right (by norm_num)]
      norm_num
    have h15 : calculate_gdd 15 = 5 := by
      unfold calculate_gdd GDD_BASE_TEMP
      rw [max_eq_right (by norm_num)]
      norm_num
    unfold calculate_accumulated_gdd
    rw [show ([8, 12, 15] : List ℚ).foldl (fun total temp => total + calculate_gdd temp) 0 = 7 by
      simp only [List.foldl_cons, List.foldl_nil, h8, h12, h15]; norm_num]
    rw [show (7 : ℚ) = ((7 : ℤ) : ℚ) by norm_num, round1_intCast]
  · intro l
    unfold calculate_accumulated_gdd
    rw [foldl_add_map, zero_add]
    rfl
  · intro d p acc
    have hstat : (gdd_progress_comparison d p acc).status =
        if -10 ≤ (gdd_progress_comparison d p acc).deviation_percent then "on_track"
        else if -25 ≤ (gdd_progress_comparison d p acc).deviation_percent then "slightly_behind"
        else "behind" := rfl
    obtain ⟨hc1, hc2, hc3⟩ := gddStatusCases (gdd_progress_comparison d p acc).deviation_percent
    refine ⟨rfl, ?_, ?_, ?_, ?_, ?_, ?_⟩
    · show round1 (get_expected_gdd_for_day d p) = d * 17
      unfold get_expected_gdd_for_day
      rw [show ((d : ℚ) * 17) = ((d * 17 : ℤ) : ℚ) by push_cast; ring, round1_intCast]
    · intro hd
      have hpos : 0 < get_expected_gdd_for_day d p := by
        unfold get_expected_gdd_for_day
        have hdq : (0 : ℚ) < d := by exact_mod_cast hd
        linarith
      show (if 0 < get_expected_gdd_for_day d p then
          round1 ((acc - get_expected_gdd_for_day d p) / get_expected_gdd_for_day d p * 100)
        else 0) = _
      rw [if_pos hpos]
      rfl
    · intro hd
      subst hd
      show (if 0 < get_expected_gdd_for_day 0 p then
          round1 ((acc - get_expected_gdd_for_day 0 p) / get_expected_gdd_for_day 0 p * 100)
        else 0) = 0
      rw [if_neg]
      unfold get_expected_gdd_for_day
      norm_num
    · rw [hstat]; exact hc1
    · rw [hstat]; exact hc2
    · rw [hstat]; exact hc3

/-- The `status_scores` lookup of `GrowthComparator.calculate_overall_score`,
with its `.get(status, 70)` fallback for unmapped statuses. -/
def status_scores (s : String) : ℕ :=
  if s = "optimal" then 100
  else if s = "on_track" then 100
  else if s = "slightly_low" then 75
  else if s = "slightly_high" then 75
  else if s = "slightly_behind" then 75
  else if s = "mid_phase" then 90
  else if s = "low" then 50
  else if s = "high" then 50
  else if s = "behind" then 50
  else if s = "extended" then 60
  else if s = "critical_low" then 20
  else if s = "critical_high" then 20
  else 70

/-- A `comparisons` record as consumed by `calculate_overall_score`: for each
dimension, the status string of that dimension when the dimension is present.
(In the source each present dimension always carries a `status` key, so the
`.get("status", "optimal")` default never fires; we model the status
directly.) -/
structure Comparisons where
  timeline : Option String
  temperature : Option String
  humidity : Option String
  soil_moisture : Option String
  light : Option String
  gdd_progress : Option String
deriving DecidableEq, Repr

/-- The `(status, weight)` items of the `weights` dict, in its iteration
(insertion) order. -/
def weightItems (c : Comparisons) : List (Option String × ℕ) :=
  [(c.temperature, 25), (c.humidity, 20), (c.soil_moisture, 25),
    (c.light, 15), (c.gdd_progress, 15)]

/-- One step of the accumulation loop of `calculate_overall_score`:
a present dimension adds `score * weight` and `weight`. -/
def wstep (acc : ℕ × ℕ) (item : Option String × ℕ) : ℕ × ℕ :=
  match item.1 with
  | some st => (acc.1 + status_scores st * item.2, acc.2 + item.2)
  | none => acc

/-- `(weighted_score, total_weight)` of `calculate_overall_score`. -/
def weightedTotals (c : Comparisons) : ℕ × ℕ :=
  (weightItems c).foldl wstep (0, 0)

/-- The final band of `calculate_overall_score`. -/
def overall_band (score : ℤ) : String :=
  if 85 ≤ score then "excellent"
  else if 70 ≤ score then "good"
  else if 50 ≤ score then "fair"
  else "poor"

/-- `GrowthComparator.calculate_overall_score` (`growth_comparator.py` lines
186-237): the weighted average over the present dimensions, rounded with
Python's `round`, zero when no weighted dimension is present. -/
def calculate_overall_score (c : Comparisons) : ℤ × String :=
  let wt := weightedTotals c
  let overall : ℤ := if 0 < wt.2 then pyround ((wt.1 : ℚ) / (wt.2 : ℚ)) else 0
  (overall, overall_band overall)

set_option maxHeartbeats 2000000 in
lemma status_scores_bounds (s : String) : 20 ≤ status_scores s ∧ status_scores s ≤ 100 := by
  unfold status_scores
  split_ifs <;> omega

lemma wfold_bounds : ∀ (items : List (Option String × ℕ)) (a b : ℕ),
    20 * b ≤ a → a ≤ 100 * b →
    20 * (items.foldl wstep (a, b)).2 ≤ (items.foldl wstep (a, b)).1
      ∧ (items.foldl wstep (a, b)).1 ≤ 100 * (items.foldl wstep (a, b)).2 := by
  intro items
  induction items with
  | nil => intro a b h1 h2; exact ⟨h1, h2⟩
  | cons it rest ih =>
    intro a b h1 h2
    simp only [List.foldl_cons]
    match hit : it.1 with
    | none =>
      simp only [wstep, hit]
      exact ih a b h1 h2
    | some st =>
      simp only [wstep, hit]
      obtain ⟨hs1, hs2⟩ := status_scores_bounds st
      refine ih _ _ ?_ ?_
      · have : 20 * it.2 ≤ status_scores st * it.2 := Nat.mul_le_mul_right _ hs1
        omega
      · have : status_scores st * it.2 ≤ 100 * it.2 := Nat.mul_le_mul_right _ hs2
        omega

lemma weightedTotals_bounds (c : Comparisons) :
    20 * (weightedTotals c).2 ≤ (weightedTotals c).1
      ∧ (weightedTotals c).1 ≤ 100 * (weightedTotals c).2 :=
  wfold_bounds (weightItems c) 0 0 (by omega) (by omega)

lemma overall_score_bounds (c : Comparisons) :
    0 ≤ (calculate_overall_score c).1 ∧ (calculate_overall_score c).1 ≤ 100 := by
  obtain ⟨hb1, hb2⟩ := weightedTotals_bounds c
  show 0 ≤ (if 0 < (weightedTotals c).2 then
      pyround (((weightedTotals c).1 : ℚ) / ((weightedTotals c).2 : ℚ)) else 0)
    ∧ (if 0 < (weightedTotals c).2 then
      pyround (((weightedTotals c).1 : ℚ) / ((weightedTotals c).2 : ℚ)) else 0) ≤ 100
  split_ifs with hw
  · have hwq : (0 : ℚ) < ((weightedTotals c).2 : ℚ) := by exact_mod_cast hw
    have hlo : (20 : ℚ) ≤ ((weightedTotals c).1 : ℚ) / ((weightedTotals c).2 : ℚ) := by
      rw [le_div_iff hwq]
      exact_mod_cast hb1
    have hhi : ((weightedTotals c).1 : ℚ) / ((weightedTotals c).2 : ℚ) ≤ 100 := by
      rw [div_le_iff hwq]
      exact_mod_cast hb2
    constructor
    · have : (20 : ℤ) ≤ pyround (((weightedTotals c).1 : ℚ) / ((weightedTotals c).2 : ℚ)) :=
        le_pyround (by exact_mod_cast hlo)
      omega
    · exact pyround_le (by exact_mod_cast hhi)
  · omega

lemma overall_band_cases (score : ℤ) :
    (overall_band score = "excellent" ↔ 85 ≤ score)
    ∧ (overall_band score = "good" ↔ 70 ≤ score ∧ score < 85)
    ∧ (overall_band score = "fair" ↔ 50 ≤ score ∧ score < 70)
    ∧ (overall_band score = "poor" ↔ score < 50) := by
  unfold overall_band
  split_ifs with h1 h2 h3 <;>
    refine ⟨?_, ?_, ?_, ?_⟩ <;>
    constructor <;>
    intro hx <;>
    first
      | rfl
      | omega
      | (exact absurd hx (by decide))
      | (exfalso; omega)

lemma cast_score_div (n w : ℕ) (hw : ((w : ℕ) : ℚ) ≠ 0) :
    ((0 + n * w : ℕ) : ℚ) / ((0 + w : ℕ) : ℚ) = ((n : ℤ) : ℚ) := by
  push_cast
  rw [zero_add, zero_add, mul_div_cancel_right₀ _ hw]

/-- The single-present-dimension instances of C7: the renormalized score is
exactly that dimension's mapped point value. -/
lemma single_dimension_exact (tl : Option String) (s : String) :
    (calculate_overall_score ⟨tl, some s, none, none, none, none⟩).1 = status_scores s
    ∧ (calculate_overall_score ⟨tl, none, some s, none, none, none⟩).1 = status_scores s
    ∧ (calculate_overall_score ⟨tl, none, none, some s, none, none⟩).1 = status_scores s
    ∧ (calculate_overall_score ⟨tl, none, none, none, some s, none⟩).1 = status_scores s
    ∧ (calculate_overall_score ⟨tl, none, none, none, none, some s⟩).1 = status_scores s := by
  refine ⟨?_, ?_, ?_, ?_, ?_⟩
  · have hwt : weightedTotals ⟨tl, some s, none, none, none, none⟩
        = (0 + status_scores s * 25, 0 + 25) := rfl
    simp only [calculate_overall_score, hwt]
    rw [if_pos (by omega), cast_score_div _ _ (by norm_num), pyround_intCast]
  · have hwt : weightedTotals ⟨tl, none, some s, none, none, none⟩
        = (0 + status_scores s * 20, 0 + 20) := rfl
    simp only [calculate_overall_score, hwt]
    rw [if_pos (by omega), cast_score_div _ _ (by norm_num), pyround_intCast]
  · have hwt : weightedTotals ⟨tl, none, none, some s, none, none⟩
        = (0 + status_scores s * 25, 0 + 25) := rfl
    simp only [calculate_overall_score, hwt]
    rw [if_pos (by omega), cast_score_div _ _ (by norm_num), pyround_intCast]
  · have hwt : weightedTotals ⟨tl, none, none, none, some s, none⟩
        = (0 + status_scores s * 15, 0 + 15) := rfl
    simp only [calculate_overall_score, hwt]
    rw [if_pos (by omega), cast_score_div _ _ (by norm_num), pyround_intCast]
  · have hwt : weightedTotals ⟨tl, none, none, none, none, some s⟩
        = (0 + status_scores s * 15, 0 + 15) := rfl
    simp only [calculate_overall_score, hwt]
    rw [if_pos (by omega), cast_score_div _ _ (by norm_num), pyround_intCast]

/-- C7: the composite score is the weighted average of status points over the
present dimensions, renormalized to the present weights and rounded to the
nearest integer (Python `round`, ties to even); it is bounded to `[0,100]`;
a single present dimension yields its mapped point value exactly; the band
thresholds are 85/70/50; and the timeline dimension carries no weight. -/
theorem claim7_overall_score (c : Comparisons) :
    (0 ≤ (calculate_overall_score c).1 ∧ (calculate_overall_score c).1 ≤ 100)
    ∧ ((weightedTotals c).2 ≠ 0 →
        |(((calculate_overall_score c).1 : ℚ))
            - ((weightedTotals c).1 : ℚ) / ((weightedTotals c).2 : ℚ)| ≤ 1/2)
    ∧ ((weightedTotals c).2 = 0 → (calculate_overall_score c).1 = 0)
    ∧ (∀ (tl : Option String) (s : String),
        (calculate_overall_score ⟨tl, some s, none, none, none, none⟩).1 = status_scores s
        ∧ (calculate_overall_score ⟨tl, none, some s, none, none, none⟩).1 = status_scores s
        ∧ (calculate_overall_score ⟨tl, none, none, some s, none, none⟩).1 = status_scores s
        ∧ (calculate_overall_score ⟨tl, none, none, none, some s, none⟩).1 = status_scores s
        ∧ (calculate_overall_score ⟨tl, none, none, none, none, some s⟩).1 = status_scores s)
    ∧ ((calculate_overall_score c).2 = "excellent" ↔ 85 ≤ (calculate_overall_score c).1)
    ∧ ((calculate_overall_score c).2 = "good"
        ↔ 70 ≤ (calculate_overall_score c).1 ∧ (calculate_overall_score c).1 < 85)
    ∧ ((calculate_overall_score c).2 = "fair"
        ↔ 50 ≤ (calculate_overall_score c).1 ∧ (calculate_overall_score c).1 < 70)
    ∧ ((calculate_overall_score c).2 = "poor" ↔ (calculate_overall_score c).1 < 50)
    ∧ (∀ tl : Option String,
        calculate_overall_score
            ⟨tl, c.temperature, c.humidity, c.soil_moisture, c.light, c.gdd_progress⟩
          = calculate_overall_score c) := by
  obtain ⟨hb1, hb2, hb3, hb4⟩ := overall_band_cases (calculate_overall_score c).1
  have hband : (calculate_overall_score c).2 = overall_band (calculate_overall_score c).1 := rfl
  refine ⟨overall_score_bounds c, ?_, ?_, single_dimension_exact,
    hband ▸ hb1, hband ▸ hb2, hband ▸ hb3, hband ▸ hb4, fun tl => rfl⟩
  · intro hw
    have hpos : 0 < (weightedTotals c).2 := Nat.pos_of_ne_zero hw
    show |((if 0 < (weightedTotals c).2 then
        pyround (((weightedTotals c).1 : ℚ) / ((weightedTotals c).2 : ℚ)) else 0 : ℤ) : ℚ)
        - ((weightedTotals c).1 : ℚ) / ((weightedTotals c).2 : ℚ)| ≤ 1/2
    rw [if_pos hpos]
    exact abs_pyround_sub _
  · intro hw
    show (if 0 < (weightedTotals c).2 then
        pyround (((weightedTotals c).1 : ℚ) / ((weightedTotals c).2 : ℚ)) else 0 : ℤ) = 0
    rw [if_neg (by omega)]

/-- One hourly sample record as grouped per sensor by
`PatternAnalyzer.analyze_daily_patterns` (`sensor_type`, `hour`, `value`; the
`time` field is carried through but never read by the analysis, so it is
omitted).  `none` models a null value. -/
structure SampleRec where
  sensor_type : String
  hour : ℕ
  value : Option ℚ
deriving DecidableEq, Repr

/-- Python truthiness of a sample value: `None` and `0` are both falsy, so
filters of the form `if d["value"]` keep exactly the non-null nonzero
values. -/
def truthyVal : Option ℚ → Option ℚ
  | none => none
  | some v => if v = 0 then none else some v

/-- Trend labels of `_calculate_trend`. -/
inductive Trend
  | increasing | decreasing | stable
deriving DecidableEq, Repr

/-- `statistics.mean` on rationals (every caller guards against the empty
list, where Python would raise). -/
def mean (l : List ℚ) : ℚ := l.sum / l.length

/-- `PatternAnalyzer._calculate_trend` (`pattern_analyzer.py` lines 137-152):
first half `values[:n//2]`, second half `values[n//2:]`, percent change of
the second-half mean relative to the first-half mean, thresholds ±10%. -/
def calculate_trend (values : List ℚ) : Trend :=
  if values.length < 2 then .stable
  else
    let first_half := mean (values.take (values.length / 2))
    let second_half := mean (values.drop (values.length / 2))
    let diff_percent :=
      if first_half ≠ 0 then (second_half - first_half) / first_half * 100 else 0
    if diff_percent > 10 then .increasing
    else if diff_percent < -10 then .decreasing
    else .stable

lemma calculate_trend_eq (values : List ℚ) (h2 : 2 ≤ values.length) :
    calculate_trend values =
      (if (if mean (values.take (values.length / 2)) ≠ 0
          then (mean (values.drop (values.length / 2))
              - mean (values.take (values.length / 2)))
              / mean (values.take (values.length / 2)) * 100
          else 0) > 10 then Trend.increasing
      else if (if mean (values.take (values.length / 2)) ≠ 0
          then (mean (values.drop (values.length / 2))
              - mean (values.take (values.length / 2)))
              / mean (values.take (values.length / 2)) * 100
          else 0) < -10 then Trend.decreasing
      else Trend.stable) := by
  unfold calculate_trend
  rw [if_neg (not_lt.mpr h2)]

lemma trendCases (dp : ℚ) :
    ((if dp > 10 then Trend.increasing
        else if dp < -10 then Trend.decreasing else Trend.stable) = Trend.increasing
      ↔ 10 < dp)
    ∧ ((if dp > 10 then Trend.increasing
        else if dp < -10 then Trend.decreasing else Trend.stable) = Trend.decreasing
      ↔ dp < -10)
    ∧ ((if dp > 10 then Trend.increasing
        else if dp < -10 then Trend.decreasing else Trend.stable) = Trend.stable
      ↔ |dp| ≤ 10) := by
  split_ifs with h1 h2
  · exact ⟨⟨fun _ => h1, fun _ => rfl⟩,
      ⟨fun h => absurd h (by decide), fun h => absurd h1 (not_lt.mpr (by linarith))⟩,
      ⟨fun h => absurd h (by decide), fun h => absurd h1 (not_lt.mpr (abs_le.mp h).2)⟩⟩
  · exact ⟨⟨fun h => absurd h (by decide), fun h => absurd h h1⟩,
      ⟨fun _ => h2, fun _ => rfl⟩,
      ⟨fun h => absurd h (by decide), fun h => absurd h2 (not_lt.mpr (abs_le.mp h).1)⟩⟩
  · push_neg at h1 h2
    exact ⟨⟨fun h => absurd h (by decide), fun h => absurd h (not_lt.mpr h1)⟩,
      ⟨fun h => absurd h (by decide), fun h => absurd h (not_lt.mpr h2)⟩,
      ⟨fun _ => abs_le.mpr ⟨h2, h1⟩, fun _ => rfl⟩⟩

/-- C5: the trend split and thresholds: first half of `floor(n/2)` elements,
second half the rest; `increasing` iff the percent change of the second-half
mean relative to the first-half mean exceeds +10, `decreasing` iff below -10,
otherwise `stable`; a zero first-half mean yields `stable`; and a change of
at most 10% in absolute value always yields `stable`. -/
theorem claim5_trend_split (values : List ℚ) (h2 : 2 ≤ values.length) :
    ((values.take (values.length / 2)).length = values.length / 2
      ∧ (values.drop (values.length / 2)).length = values.length - values.length / 2)
    ∧ (mean (values.take (values.length / 2)) = 0 → calculate_trend values = Trend.stable)
    ∧ (mean (values.take (values.length / 2)) ≠ 0 →
        (calculate_trend values = Trend.increasing
          ↔ 10 < (mean (values.drop (values.length / 2))
                - mean (values.take (values.length / 2)))
              / mean (values.take (values.length / 2)) * 100)
        ∧ (calculate_trend values = Trend.decreasing
          ↔ (mean (values.drop (values.length / 2))
                - mean (values.take (values.length / 2)))
              / mean (values.take (values.length / 2)) * 100 < -10)
        ∧ (calculate_trend values = Trend.stable
          ↔ |(mean (values.drop (values.length / 2))
                - mean (values.take (values.length / 2)))
              / mean (values.take (values.length / 2)) * 100| ≤ 10)) := by
  refine ⟨⟨?_, ?_⟩, ?_, ?_⟩
  · rw [List.length_take]
    exact Nat.min_eq_left (Nat.div_le_self _ _)
  · exact List.length_drop _ _
  · intro h0
    rw [calculate_trend_eq values h2]
    have hc : (if mean (values.take (values.length / 2)) ≠ 0
        then (mean (values.drop (values.length / 2)) - mean (values.take (values.length / 2)))
            / mean (values.take (values.length / 2)) * 100 else 0) = 0 := if_neg (by simp [h0])
    rw [hc]
    norm_num
  · intro h0
    rw [calculate_trend_eq values h2, if_pos h0]
    exact trendCases _

/-- Witness for C5 at the values `[30, 20, 10]` (first half `[30]`, second
half `[20, 10]`, change -50%, trend `decreasing`). -/
theorem claim5_trend_split_witness :
    ((([30, 20, 10] : List ℚ).take (([30, 20, 10] : List ℚ).length / 2)).length
        = ([30, 20, 10] : List ℚ).length / 2
      ∧ (([30, 20, 10] : List ℚ).drop (([30, 20, 10] : List ℚ).length / 2)).length
        = ([30, 20, 10] : List ℚ).length - ([30, 20, 10] : List ℚ).length / 2)
    ∧ (mean (([30, 20, 10] : List ℚ).take (([30, 20, 10] : List ℚ).length / 2)) = 0 →
        calculate_trend [30, 20, 10] = Trend.stable)
    ∧ (mean (([30, 20, 10] : List ℚ).take (([30, 20, 10] : List ℚ).length / 2)) ≠ 0 →
        (calculate_trend [30, 20, 10] = Trend.increasing
          ↔ 10 < (mean (([30, 20, 10] : List ℚ).drop (([30, 20, 10] : List ℚ).length / 2))
                - mean (([30, 20, 10] : List ℚ).take (([30, 20, 10] : List ℚ).length / 2)))
              / mean (([30, 20, 10] : List ℚ).take (([30, 20, 10] : List ℚ).length / 2)) * 100)
        ∧ (calculate_trend [30, 20, 10] = Trend.decreasing
          ↔ (mean (([30, 20, 10] : List ℚ).drop (([30, 20, 10] : List ℚ).length / 2))
                - mean (([30, 20, 10] : List ℚ).take (([30, 20, 10] : List ℚ).length / 2)))
              / mean (([30, 20, 10] : List ℚ).take (([30, 20, 10] : List ℚ).length / 2)) * 100
              < -10)
        ∧ (calculate_trend [30, 20, 10] = Trend.stable
          ↔ |(mean (([30, 20, 10] : List ℚ).drop (([30, 20, 10] : List ℚ).length / 2))
                - mean (([30, 20, 10] : List ℚ).take (([30, 20, 10] : List ℚ).length / 2)))
              / mean (([30, 20, 10] : List ℚ).take (([30, 20, 10] : List ℚ).length / 2)) * 100|
              ≤ 10)) :=
  claim5_trend_split [30, 20, 10] (by norm_num)

/-- `l.filter(sensor_type == s)`: the records of one sensor, in input order
(the per-sensor lists built by the grouping loop of
`analyze_daily_patterns`). -/
def recordsOf (l : List SampleRec) (s : String) : List SampleRec :=
  l.filter (fun d => d.sensor_type == s)

/-- `[d["value"] for d in data if d["value"]]`: the truthy values of a
record list, in order. -/
def truthyValues (data : List SampleRec) : List ℚ :=
  data.filterMap (fun d => truthyVal d.value)

/-- The hour/truthy-value view of a record; the by-hour dicts and bucket
filters of the pattern analyzer depend on a record only through
`(sensor_type, hourVal)`. -/
def hourVal (d : SampleRec) : ℕ × Option ℚ := (d.hour, truthyVal d.value)

/-- Insert-or-replace for the association-list model of a Python dict keyed
by hour (later duplicate hours overwrite, insertion order kept). -/
def upsert (m : List (ℕ × ℚ)) (h : ℕ) (v : ℚ) : List (ℕ × ℚ) :=
  if m.any (fun p => p.1 == h) then m.map (fun p => if p.1 == h then (h, v) else p)
  else m ++ [(h, v)]

/-- `{d["hour"]: d["value"] for d in data if d["value"]}` over projected
`(hour, truthy value)` pairs. -/
def byHourP (ps : List (ℕ × Option ℚ)) : List (ℕ × ℚ) :=
  ps.foldl (fun m p => match p.2 with | none => m | some v => upsert m p.1 v) []

def byHour (data : List SampleRec) : List (ℕ × ℚ) :=
  byHourP (data.map hourVal)

/-- Dict lookup (total, with an irrelevant default: only used on keys present
in the dict). -/
def lookupHour (m : List (ℕ × ℚ)) (h : ℕ) : ℚ :=
  ((m.find? (fun p => p.1 == h)).map (fun p => p.2)).getD 0

/-- `sorted(set(temp_by_hour) & set(humid_by_hour))`: keys of the first dict
that the second also has, sorted ascending (dict keys are already unique). -/
def commonHours (tm hm : List (ℕ × ℚ)) : List ℕ :=
  (((tm.map (fun p => p.1)).filter (fun h => (hm.map (fun p => p.1)).contains h)).insertionSort
    (· ≤ ·))

/-- The transition-counting loop: `(temp_increases, humid_decreases)` over
adjacent pairs of the sorted common hours. -/
def tempHumidCounts (tm hm : List (ℕ × ℚ)) (hl : List ℕ) : ℕ × ℕ :=
  (hl.zip hl.tail).foldl
    (fun acc pr =>
      if lookupHour tm pr.1 < lookupHour tm pr.2 then
        (acc.1 + 1, if lookupHour hm pr.2 < lookupHour hm pr.1 then acc.2 + 1 else acc.2)
      else acc)
    (0, 0)

/-- The type tags of correlation findings (`"inverse"`, `"trend_warning"`;
the `sensors`/`description` fields carry no further analysis content). -/
inductive CorrKind
  | inverse | trendWarning
deriving DecidableEq, Repr

/-- The temperature/humidity block of `_detect_correlations`
(`pattern_analyzer.py` lines 235-265).  `0.6` is exact here: the ratio of two
transition counts can only equal the float `0.6` when it is exactly `3/5`. -/
def inverse_correlation_part (l : List SampleRec) : List CorrKind :=
  if "temperature" ∈ l.map (fun d => d.sensor_type)
      ∧ "humidity" ∈ l.map (fun d => d.sensor_type) then
    let tm := byHour (recordsOf l "temperature")
    let hm := byHour (recordsOf l "humidity")
    let hl := commonHours tm hm
    if 3 ≤ hl.length then
      let counts := tempHumidCounts tm hm hl
      if 0 < counts.1 ∧ (3 : ℚ)/5 < (counts.2 : ℚ) / (counts.1 : ℚ) then [CorrKind.inverse]
      else []
    else []
  else []

/-- The soil-moisture block of `_detect_correlations`
(`pattern_analyzer.py` lines 267-281). -/
def soil_part (l : List SampleRec) : List CorrKind :=
  if "soil_moisture" ∈ l.map (fun d => d.sensor_type) then
    let values := truthyValues (recordsOf l "soil_moisture")
    if 3 ≤ values.length then
      if calculate_trend values = Trend.decreasing then
        if 1 < (values.headI - values.getLastI) / values.length then [CorrKind.trendWarning]
        else []
      else []
    else []
  else []

/-- `PatternAnalyzer._detect_correlations`, keyed by finding type. -/
def detect_correlations (l : List SampleRec) : List CorrKind :=
  inverse_correlation_part l ++ soil_part l

lemma mem_inverse_part {l : List SampleRec} {k : CorrKind}
    (hk : k ∈ inverse_correlation_part l) : k = CorrKind.inverse := by
  unfold inverse_correlation_part at hk
  split_ifs at hk <;> simp_all

/-- C6 (amended): for the truthy (non-null, nonzero) soil-moisture values,
when at least 3 exist, the `trend_warning` ("may need watering") finding is
reported iff their trend is `decreasing` and the drop from first to last
truthy value divided by the number of truthy values exceeds 1. -/
theorem claim6_soil_decline_warning (l : List SampleRec)
    (h3 : 3 ≤ (truthyValues (recordsOf l "soil_moisture")).length) :
    CorrKind.trendWarning ∈ detect_correlations l
      ↔ calculate_trend (truthyValues (recordsOf l "soil_moisture")) = Trend.decreasing
        ∧ 1 < ((truthyValues (recordsOf l "soil_moisture")).headI
              - (truthyValues (recordsOf l "soil_moisture")).getLastI)
            / ((truthyValues (recordsOf l "soil_moisture")).length : ℚ) := by
  have hrec : recordsOf l "soil_moisture" ≠ [] := by
    intro he
    rw [truthyValues, he] at h3
    simp at h3
  have hname : "soil_moisture" ∈ l.map (fun d => d.sensor_type) := by
    obtain ⟨d, hd⟩ := List.exists_mem_of_ne_nil _ hrec
    have hd2 := List.mem_filter.mp hd
    have heq : d.sensor_type = "soil_moisture" := by
      have := hd2.2
      simpa using this
    exact heq ▸ List.mem_map_of_mem (fun r => r.sensor_type) hd2.1
  rw [detect_correlations, List.mem_append]
  constructor
  · rintro (h | h)
    · exact absurd (mem_inverse_part h) (by decide)
    · simp only [soil_part] at h
      split_ifs at h <;> first | exact ⟨by assumption, by assumption⟩ | simp_all
  · rintro ⟨htrend, hdrop⟩
    right
    simp only [soil_part]
    rw [if_pos hname, if_pos h3, if_pos htrend, if_pos hdrop]
    exact List.mem_singleton.mpr rfl

/-- Witness for C6's amended theorem: the series `[30, 10, 5]` (all truthy)
has a decreasing trend and drops `25/3 > 1` per value, so the warning is
reported. -/
theorem claim6_soil_decline_warning_witness :
    CorrKind.trendWarning ∈ detect_correlations
        [⟨"soil_moisture", 0, some 30⟩, ⟨"soil_moisture", 1, some 10⟩,
          ⟨"soil_moisture", 2, some 5⟩]
      ↔ calculate_trend (truthyValues (recordsOf
            [⟨"soil_moisture", 0, some 30⟩, ⟨"soil_moisture", 1, some 10⟩,
              ⟨"soil_moisture", 2, some 5⟩] "soil_moisture")) = Trend.decreasing
        ∧ 1 < ((truthyValues (recordsOf
                [⟨"soil_moisture", 0, some 30⟩, ⟨"soil_moisture", 1, some 10⟩,
                  ⟨"soil_moisture", 2, some 5⟩] "soil_moisture")).headI
              - (truthyValues (recordsOf
                [⟨"soil_moisture", 0, some 30⟩, ⟨"soil_moisture", 1, some 10⟩,
                  ⟨"soil_moisture", 2, some 5⟩] "soil_moisture")).getLastI)
            / ((truthyValues (recordsOf
                [⟨"soil_moisture", 0, some 30⟩, ⟨"soil_moisture", 1, some 10⟩,
                  ⟨"soil_moisture", 2, some 5⟩] "soil_moisture")).length : ℚ) :=
  claim6_soil_decline_warning
    [⟨"soil_moisture", 0, some 30⟩, ⟨"soil_moisture", 1, some 10⟩,
      ⟨"soil_moisture", 2, some 5⟩] (by decide)

/-- C6 counterexample: the soil series `20, 0, 5` has three non-null values,
its trend (over the non-null values) is decreasing, and the mean per-step
decline exceeds 1 under either step convention ((20-5)/3 and (20-5)/2), yet
no `trend_warning` finding is reported: the code's truthiness filter also
drops the genuine 0 reading, leaving only 2 values, below the 3-value
minimum. -/
theorem claim6_counterexample :
    ([⟨"soil_moisture", 0, some 20⟩, ⟨"soil_moisture", 1, some 0⟩,
        ⟨"soil_moisture", 2, some 5⟩] : List SampleRec).filterMap (fun r => r.value)
        = [20, 0, 5]
    ∧ calculate_trend [20, 0, 5] = Trend.decreasing
    ∧ (1 : ℚ) < (20 - 5) / 3
    ∧ (1 : ℚ) < (20 - 5) / 2
    ∧ CorrKind.trendWarning ∉ detect_correlations
        [⟨"soil_moisture", 0, some 20⟩, ⟨"soil_moisture", 1, some 0⟩,
          ⟨"soil_moisture", 2, some 5⟩] := by
  refine ⟨by decide, ?_, by norm_num, by norm_num, ?_⟩
  · unfold calculate_trend mean
    norm_num
  · decide

instance : Inhabited SampleRec := ⟨⟨"", 0, none⟩⟩

/-- Python dict key order of the per-sensor grouping: sensor names by first
occurrence in the input. -/
def firstKeys (l : List String) : List String :=
  l.foldl (fun acc s => if s ∈ acc then acc else acc ++ [s]) []

/-- `min(values)` of a non-empty list (0 on `[]`, unreachable behind the
all-null guard). -/
def listMin : List ℚ → ℚ
  | [] => 0
  | a :: r => r.foldl min a

/-- `max(values)` of a non-empty list. -/
def listMax : List ℚ → ℚ
  | [] => 0
  | a :: r => r.foldl max a

/-- Sample variance, `statistics.stdev(values)^2`, with the source's
`len(values) > 1` guard.  The source reports `round(sqrt(svar), 2)` as
`std_dev`; the square root is irrational, so the embedding carries the
variance, which determines it and enters every comparison squared. -/
def svar (l : List ℚ) : ℚ :=
  if 1 < l.length then ((l.map (fun v => (v - mean l)^2)).sum) / ((l.length : ℚ) - 1)
  else 0

/-- The `peak_hour` sort key, `x["value"] if x["value"] else 0`: falsy
values (null or 0) compare as 0. -/
def peakKey (d : SampleRec) : ℚ := (truthyVal d.value).getD 0

/-- The `low_hour` sort key, `x["value"] if x["value"] else float("inf")`:
falsy values compare as +infinity, modelled by `none`. -/
def lowKey (d : SampleRec) : Option ℚ := truthyVal d.value

/-- Strict order on low-keys with `none` as +infinity. -/
def ltOpt : Option ℚ → Option ℚ → Bool
  | some x, some y => x < y
  | some _, none => true
  | _, _ => false

/-- Python `max(data, key=...)`: the first record with the maximal key. -/
def peakRecord (data : List SampleRec) : SampleRec :=
  data.foldl (fun best d => if peakKey best < peakKey d then d else best) data.headI

/-- Python `min(data, key=...)`: the first record with the minimal key. -/
def lowRecord (data : List SampleRec) : SampleRec :=
  data.foldl (fun best d => if ltOpt (lowKey d) (lowKey best) then d else best) data.headI

/-- The per-sensor `sensor_analysis` dict of `analyze_daily_patterns`
(lines 51-65): statistics over the non-null values (zeros included), trend,
and peak/low hours over all records. -/
structure SensorStats where
  min : ℚ
  max : ℚ
  avg : ℚ
  range : ℚ
  trend : Trend
  varS : ℚ
  peak_hour : ℕ
  low_hour : ℕ
deriving DecidableEq, Repr

def sensorStats (data : List SampleRec) : SensorStats :=
  let values := data.filterMap (fun d => d.value)
  { min := round2 (listMin values)
    max := round2 (listMax values)
    avg := round2 (mean values)
    range := round2 (listMax values - listMin values)
    trend := calculate_trend values
    varS := svar values
    peak_hour := (peakRecord data).hour
    low_hour := (lowRecord data).hour }

/-- A time-of-day bucket: the truthy values of the records whose hour
satisfies the bucket predicate. -/
def bucket (data : List SampleRec) (p : ℕ → Bool) : List ℚ :=
  data.filterMap (fun d => if p d.hour then truthyVal d.value else none)

def morningHour (h : ℕ) : Bool := decide (6 ≤ h) && decide (h < 12)

def afternoonHour (h : ℕ) : Bool := decide (12 ≤ h) && decide (h < 18)

/-- A detected daily-cycle pattern record (`sensor`, `type`; the formatted
description carries no further analysis content). -/
structure DPattern where
  sensor : String
  ptype : String
deriving DecidableEq, Repr

/-- `PatternAnalyzer._detect_daily_pattern` (lines 160-196).  The evening and
night buckets are computed by the source but never read; only the
morning/afternoon comparison decides the result, an elif chain so at most one
pattern is appended and `patterns[0]` is returned. -/
def detect_daily_pattern (sensor : String) (data : List SampleRec) : Option DPattern :=
  let morning := bucket data morningHour
  let afternoon := bucket data afternoonHour
  if morning ≠ [] ∧ afternoon ≠ [] then
    let morning_avg := mean morning
    let afternoon_avg := mean afternoon
    let diff_percent :=
      if morning_avg ≠ 0 then (afternoon_avg - morning_avg) / morning_avg * 100 else 0
    if sensor = "temperature" ∧ 10 < diff_percent then some ⟨sensor, "daily_cycle"⟩
    else if sensor = "humidity" ∧ diff_percent < -10 then some ⟨sensor, "daily_cycle"⟩
    else if sensor = "light" ∧ 50 < diff_percent then some ⟨sensor, "daily_cycle"⟩
    else none
  else none

/-- A detected anomaly record (`sensor`, `type`). -/
structure Anomaly where
  sensor : String
  atype : String
deriving DecidableEq, Repr

/-- `PatternAnalyzer._detect_anomaly` (lines 198-227).  The source's outlier
test `std > 0 and abs(val - avg) > 2 * std` is carried as
`0 < var ∧ 4 * var < (val - avg)^2`, its exact square (both sides are
nonnegative), avoiding the irrational standard deviation. -/
def detect_anomaly (sensor : String) (values : List ℚ) : Option Anomaly :=
  if values.length < 3 then none
  else
    let avg := mean values
    let varS := svar values
    match values.find? (fun v => decide (0 < varS ∧ 4 * varS < (v - avg)^2)) with
    | some _ => some ⟨sensor, "outlier"⟩
    | none =>
      match (values.zip values.tail).find? (fun pr =>
          decide (pr.1 ≠ 0 ∧ 50 < |(pr.2 - pr.1) / pr.1 * 100|)) with
      | some _ => some ⟨sensor, "sudden_change"⟩
      | none => none

/-- The per-sensor admission test of the analysis loop: at least 2 records
(`len(data) < 2: continue`) and at least one non-null value
(`if not values: continue`). -/
def gate (data : List SampleRec) : Prop :=
  2 ≤ data.length ∧ data.filterMap (fun d => d.value) ≠ []

instance (data : List SampleRec) : Decidable (gate data) := by
  unfold gate; infer_instance

def sensorEntry (l : List SampleRec) (s : String) : Option (String × SensorStats) :=
  if gate (recordsOf l s) then some (s, sensorStats (recordsOf l s)) else none

def patternEntry (l : List SampleRec) (s : String) : Option DPattern :=
  if gate (recordsOf l s) then detect_daily_pattern s (recordsOf l s) else none

def anomalyEntry (l : List SampleRec) (s : String) : Option Anomaly :=
  if gate (recordsOf l s) then
    detect_anomaly s ((recordsOf l s).filterMap (fun d => d.value))
  else none

/-- The result shape of `analyze_daily_patterns` (the `period` constant is
omitted). -/
structure DailyAnalysis where
  success : Bool
  error : Option String
  sensors : List (String × SensorStats)
  patterns : List DPattern
  anomalies : List Anomaly
  correlations : List CorrKind
deriving DecidableEq, Repr

/-- `PatternAnalyzer.analyze_daily_patterns` (lines 14-83): soft failure on
empty input; per-sensor grouping in first-occurrence order; sensors failing
the admission test are skipped; correlations run on the raw groups. -/
def analyze_daily_patterns (hourly_data : List SampleRec) : DailyAnalysis :=
  if hourly_data = [] then
    { success := false, error := some "No data available",
      sensors := [], patterns := [], anomalies := [], correlations := [] }
  else
    let names := firstKeys (hourly_data.map (fun d => d.sensor_type))
    { success := true
      error := none
      sensors := names.filterMap (sensorEntry hourly_data)
      patterns := names.filterMap (patternEntry hourly_data)
      anomalies := names.filterMap (anomalyEntry hourly_data)
      correlations := detect_correlations hourly_data }

/-- Lookup in the `sensors` map of the result. -/
def lookupStats (xs : List (String × SensorStats)) (s : String) : Option SensorStats :=
  (xs.find? (fun p => p.1 == s)).map (fun p => p.2)

lemma mem_firstKeys_aux : ∀ (l acc : List String) (x : String),
    x ∈ l.foldl (fun acc s => if s ∈ acc then acc else acc ++ [s]) acc
      ↔ x ∈ acc ∨ x ∈ l := by
  intro l
  induction l with
  | nil => intro acc x; simp
  | cons s rest ih =>
    intro acc x
    rw [List.foldl_cons, ih]
    by_cases hs : s ∈ acc
    · rw [if_pos hs]
      constructor
      · rintro (h | h)
        · exact Or.inl h
        · exact Or.inr (List.mem_cons_of_mem s h)
      · rintro (h | h)
        · exact Or.inl h
        · rcases List.mem_cons.mp h with rfl | h
          · exact Or.inl hs
          · exact Or.inr h
    · rw [if_neg hs]
      constructor
      · rintro (h | h)
        · rcases List.mem_append.mp h with h | h
          · exact Or.inl h
          · exact Or.inr (List.mem_cons.mpr (Or.inl (List.mem_singleton.mp h)))
        · exact Or.inr (List.mem_cons_of_mem s h)
      · rintro (h | h)
        · exact Or.inl (List.mem_append.mpr (Or.inl h))
        · rcases List.mem_cons.mp h with rfl | h
          · exact Or.inl (List.mem_append.mpr (Or.inr (List.mem_singleton.mpr rfl)))
          · exact Or.inr h

lemma mem_firstKeys (l : List String) (x : String) : x ∈ firstKeys l ↔ x ∈ l := by
  unfold firstKeys
  rw [mem_firstKeys_aux]
  simp

lemma firstKeys_nodup_aux : ∀ (l acc : List String), acc.Nodup →
    (l.foldl (fun acc s => if s ∈ acc then acc else acc ++ [s]) acc).Nodup := by
  intro l
  induction l with
  | nil => intro acc h; exact h
  | cons s rest ih =>
    intro acc h
    rw [List.foldl_cons]
    by_cases hs : s ∈ acc
    · rw [if_pos hs]; exact ih acc h
    · rw [if_neg hs]
      refine ih _ ?_
      rw [List.nodup_append]
      exact ⟨h, List.nodup_singleton s, by simpa using hs⟩

lemma firstKeys_nodup (l : List String) : (firstKeys l).Nodup :=
  firstKeys_nodup_aux l [] List.nodup_nil

lemma find?_entries_none {α : Type} (key : α → String) (f : String → Option α)
    (hf : ∀ t p, f t = some p → key p = t) :
    ∀ (names : List String) (s : String), f s = none →
      (names.filterMap f).find? (fun p => key p == s) = none := by
  intro names
  induction names with
  | nil => intro s _; rfl
  | cons t rest ih =>
    intro s hs
    rw [List.filterMap_cons]
    cases hft : f t with
    | none => exact ih s hs
    | some p =>
      have hkey : key p = t := hf t p hft
      have hne : t ≠ s := by
        rintro rfl
        rw [hs] at hft
        exact Option.noConfusion hft
      have : (key p == s) = false := by
        rw [hkey]
        exact beq_eq_false_iff_ne.mpr hne
      rw [List.find?_cons_of_neg _ (by simp [this])]
      exact ih s hs

lemma find?_entries_some {α : Type} (key : α → String) (f : String → Option α)
    (hf : ∀ t p, f t = some p → key p = t) :
    ∀ (names : List String), names.Nodup → ∀ (s : String) (p : α), s ∈ names →
      f s = some p → (names.filterMap f).find? (fun q => key q == s) = some p := by
  intro names
  induction names with
  | nil => intro _ s p hmem; exact absurd hmem (List.not_mem_nil s)
  | cons t rest ih =>
    intro hnd s p hmem hs
    obtain ⟨hnt, hndr⟩ := List.nodup_cons.mp hnd
    rw [List.filterMap_cons]
    rcases List.mem_cons.mp hmem with rfl | hmemr
    · rw [hs]
      have hkey : key p = s := hf s p hs
      exact List.find?_cons_of_pos _ (by rw [hkey, beq_self_eq_true])
    · have hne : t ≠ s := fun he => hnt (he ▸ hmemr)
      cases hft : f t with
      | none => exact ih hndr s p hmemr hs
      | some q =>
        have hkey : key q = t := hf t q hft
        rw [List.find?_cons_of_neg _ (by rw [hkey]; simp [hne])]
        exact ih hndr s p hmemr hs

lemma sensorEntry_key (l : List SampleRec) (t : String) (p : String × SensorStats)
    (h : sensorEntry l t = some p) : p.1 = t := by
  unfold sensorEntry at h
  split_ifs at h
  all_goals first
    | (injection h with h2; subst h2; rfl)
    | exact Option.noConfusion h

lemma detect_daily_pattern_sensor (s : String) (data : List SampleRec) (p : DPattern)
    (h : detect_daily_pattern s data = some p) : p.sensor = s := by
  simp only [detect_daily_pattern] at h
  split_ifs at h <;>
    first
      | (injection h with h2; subst h2; rfl)
      | exact Option.noConfusion h

lemma patternEntry_prop (l : List SampleRec) (t : String) (p : DPattern)
    (h : patternEntry l t = some p) : p.sensor = t ∧ gate (recordsOf l t) := by
  unfold patternEntry at h
  split_ifs at h with hg
  all_goals first
    | exact ⟨detect_daily_pattern_sensor t _ p h, hg⟩
    | exact Option.noConfusion h

lemma detect_anomaly_sensor (s : String) (values : List ℚ) (p : Anomaly)
    (h : detect_anomaly s values = some p) : p.sensor = s := by
  simp only [detect_anomaly] at h
  split at h
  · exact Option.noConfusion h
  · split at h
    · injection h with h2; subst h2; rfl
    · split at h
      · injection h with h2; subst h2; rfl
      · exact Option.noConfusion h

lemma anomalyEntry_prop (l : List SampleRec) (t : String) (a : Anomaly)
    (h : anomalyEntry l t = some a) : a.sensor = t ∧ gate (recordsOf l t) := by
  unfold anomalyEntry at h
  split_ifs at h with hg
  all_goals first
    | exact ⟨detect_anomaly_sensor t _ a h, hg⟩
    | exact Option.noConfusion h

/-- C9: `analyze_daily_patterns` fails softly (`success = false` with an
error message) exactly on empty input; on non-empty input it succeeds, a
sensor with fewer than 2 records or all-null values is skipped (no `sensors`
entry, no pattern, no anomaly), and for every other sensor the statistics
entry, the daily-pattern result and the anomaly result are still computed,
each from that sensor's own records alone. -/
theorem claim9_soft_failure_isolation (l : List SampleRec) :
    ((analyze_daily_patterns l).success = false ↔ l = [])
    ∧ (l = [] → (analyze_daily_patterns l).error = some "No data available")
    ∧ ((analyze_daily_patterns l).success = true ↔ l ≠ [])
    ∧ (∀ s : String,
        ((recordsOf l s).length < 2 ∨ (recordsOf l s).filterMap (fun d => d.value) = []) →
          lookupStats (analyze_daily_patterns l).sensors s = none
          ∧ (∀ p ∈ (analyze_daily_patterns l).patterns, p.sensor ≠ s)
          ∧ (∀ a ∈ (analyze_daily_patterns l).anomalies, a.sensor ≠ s))
    ∧ (∀ s : String, s ∈ l.map (fun d => d.sensor_type) →
        2 ≤ (recordsOf l s).length →
        (recordsOf l s).filterMap (fun d => d.value) ≠ [] →
          lookupStats (analyze_daily_patterns l).sensors s
            = some (sensorStats (recordsOf l s))
          ∧ (analyze_daily_patterns l).patterns.find? (fun p => p.sensor == s)
            = detect_daily_pattern s (recordsOf l s)
          ∧ (analyze_daily_patterns l).anomalies.find? (fun a => a.sensor == s)
            = detect_anomaly s ((recordsOf l s).filterMap (fun d => d.value))) := by
  by_cases hl : l = []
  · subst hl
    refine ⟨by simp [analyze_daily_patterns], fun _ => rfl, by simp [analyze_daily_patterns],
      fun s _ => ⟨rfl, ?_, ?_⟩, fun s hmem => absurd hmem (by simp)⟩
    · intro p hp
      exact absurd hp (by simp [analyze_daily_patterns])
    · intro a ha
      exact absurd ha (by simp [analyze_daily_patterns])
  · have hsens : (analyze_daily_patterns l).sensors
        = (firstKeys (l.map (fun d => d.sensor_type))).filterMap (sensorEntry l) := by
      simp [analyze_daily_patterns, hl]
    have hpats : (analyze_daily_patterns l).patterns
        = (firstKeys (l.map (fun d => d.sensor_type))).filterMap (patternEntry l) := by
      simp [analyze_daily_patterns, hl]
    have hanon : (analyze_daily_patterns l).anomalies
        = (firstKeys (l.map (fun d => d.sensor_type))).filterMap (anomalyEntry l) := by
      simp [analyze_daily_patterns, hl]
    have hsucc : (analyze_daily_patterns l).success = true := by
      simp [analyze_daily_patterns, hl]
    refine ⟨by rw [hsucc]; simp [hl], fun he => absurd he hl, by rw [hsucc]; simp [hl],
      ?_, ?_⟩
    · intro s hbad
      have hng : ¬ gate (recordsOf l s) := by
        unfold gate
        rcases hbad with h | h
        · exact fun hg => absurd hg.1 (by omega)
        · exact fun hg => hg.2 h
      have hnone : sensorEntry l s = none := by
        unfold sensorEntry
        rw [if_neg hng]
      refine ⟨?_, ?_, ?_⟩
      · rw [hsens]
        unfold lookupStats
        rw [find?_entries_none (fun p => p.1) (sensorEntry l) (sensorEntry_key l) _ s hnone]
        rfl
      · intro p hp hps
        rw [hpats] at hp
        obtain ⟨t, _, hpe⟩ := List.mem_filterMap.mp hp
        obtain ⟨hkey, hgt⟩ := patternEntry_prop l t p hpe
        rw [hps] at hkey
        exact hng (hkey ▸ hgt)
      · intro a ha has
        rw [hanon] at ha
        obtain ⟨t, _, hae⟩ := List.mem_filterMap.mp ha
        obtain ⟨hkey, hgt⟩ := anomalyEntry_prop l t a hae
        rw [has] at hkey
        exact hng (hkey ▸ hgt)
    · intro s hmem h2 hval
      have hg : gate (recordsOf l s) := ⟨h2, hval⟩
      have hnd := firstKeys_nodup (l.map (fun d => d.sensor_type))
      have hmemk := (mem_firstKeys (l.map (fun d => d.sensor_type)) s).mpr hmem
      have hsome : sensorEntry l s = some (s, sensorStats (recordsOf l s)) := by
        unfold sensorEntry
        rw [if_pos hg]
      have hpe : patternEntry l s = detect_daily_pattern s (recordsOf l s) := by
        unfold patternEntry
        rw [if_pos hg]
      have hae : anomalyEntry l s
          = detect_anomaly s ((recordsOf l s).filterMap (fun d => d.value)) := by
        unfold anomalyEntry
        rw [if_pos hg]
      refine ⟨?_, ?_, ?_⟩
      · rw [hsens]
        unfold lookupStats
        rw [find?_entries_some (fun p => p.1) (sensorEntry l) (sensorEntry_key l) _
          hnd s _ hmemk hsome]
        rfl
      · rw [hpats]
        cases hdet : detect_daily_pattern s (recordsOf l s) with
        | none =>
          exact find?_entries_none (fun p => p.sensor) (patternEntry l)
            (fun t p h => (patternEntry_prop l t p h).1) _ s (hpe.trans hdet)
        | some p =>
          exact find?_entries_some (fun p => p.sensor) (patternEntry l)
            (fun t p h => (patternEntry_prop l t p h).1) _ hnd s p hmemk (hpe.trans hdet)
      · rw [hanon]
        cases hdet : detect_anomaly s ((recordsOf l s).filterMap (fun d => d.value)) with
        | none =>
          exact find?_entries_none (fun a => a.sensor) (anomalyEntry l)
            (fun t a h => (anomalyEntry_prop l t a h).1) _ s (hae.trans hdet)
        | some a =>
          exact find?_entries_some (fun a => a.sensor) (anomalyEntry l)
            (fun t a h => (anomalyEntry_prop l t a h).1) _ hnd s a hmemk (hae.trans hdet)

/-- A record with its value nulled (the 0-versus-null comparison windows of
C10 differ by exactly this change at one slot). -/
def nullified (r : SampleRec) : SampleRec := {r with value := none}

lemma truthyVal_zero : truthyVal (some 0) = none := by
  simp [truthyVal]

lemma hourVal_nullified (r : SampleRec) (hv : r.value = some 0) :
    hourVal (nullified r) = hourVal r := by
  unfold hourVal nullified
  rw [hv, truthyVal_zero]
  rfl

lemma recordsOf_append (l1 l2 : List SampleRec) (s : String) :
    recordsOf (l1 ++ l2) s = recordsOf l1 s ++ recordsOf l2 s := by
  unfold recordsOf
  exact List.filter_append _ _

lemma recordsOf_cons (x : SampleRec) (l : List SampleRec) (s : String) :
    recordsOf (x :: l) s
      = if x.sensor_type == s then x :: recordsOf l s else recordsOf l s := by
  unfold recordsOf
  rw [List.filter_cons]

lemma filterMap_congr2 {α β : Type} (l : List α) (f g : α → Option β)
    (h : ∀ a ∈ l, f a = g a) : l.filterMap f = l.filterMap g := by
  induction l with
  | nil => rfl
  | cons x xs ih =>
    rw [List.filterMap_cons, List.filterMap_cons, h x (List.mem_cons_self x xs),
      ih (fun a ha => h a (List.mem_cons_of_mem x ha))]

lemma map_recordsOf_mid {β : Type} (f : SampleRec → β) (pre post : List SampleRec)
    (x y : SampleRec) (hsen : x.sensor_type = y.sensor_type) (hf : f x = f y) (s : String) :
    (recordsOf (pre ++ x :: post) s).map f = (recordsOf (pre ++ y :: post) s).map f := by
  rw [recordsOf_append, recordsOf_append, recordsOf_cons, recordsOf_cons, hsen]
  by_cases hcs : y.sensor_type == s
  · rw [if_pos hcs, if_pos hcs]
    simp [hf]
  · rw [if_neg hcs, if_neg hcs]

lemma filterMap_recordsOf_mid {β : Type} (g : SampleRec → Option β)
    (pre post : List SampleRec) (x y : SampleRec)
    (hsen : x.sensor_type = y.sensor_type) (hg : g x = g y) (s : String) :
    (recordsOf (pre ++ x :: post) s).filterMap g
      = (recordsOf (pre ++ y :: post) s).filterMap g := by
  rw [recordsOf_append, recordsOf_append, recordsOf_cons, recordsOf_cons, hsen]
  by_cases hcs : y.sensor_type == s
  · rw [if_pos hcs, if_pos hcs]
    simp [List.filterMap_append, List.filterMap_cons, hg]
  · rw [if_neg hcs, if_neg hcs]

/-- The correlation detector reads a record only through its sensor type,
hour and truthy value, so nulling a 0-valued record changes nothing. -/
lemma detect_correlations_nullified (pre post : List SampleRec) (r : SampleRec)
    (hv : r.value = some 0) :
    detect_correlations (pre ++ nullified r :: post)
      = detect_correlations (pre ++ r :: post) := by
  have hsen : (nullified r).sensor_type = r.sensor_type := rfl
  have hname : (pre ++ nullified r :: post).map (fun d => d.sensor_type)
      = (pre ++ r :: post).map (fun d => d.sensor_type) := by
    simp [nullified]
  have hby : ∀ s, byHour (recordsOf (pre ++ nullified r :: post) s)
      = byHour (recordsOf (pre ++ r :: post) s) := by
    intro s
    unfold byHour
    rw [map_recordsOf_mid hourVal pre post _ _ hsen (hourVal_nullified r hv) s]
  have htv : ∀ s, truthyValues (recordsOf (pre ++ nullified r :: post) s)
      = truthyValues (recordsOf (pre ++ r :: post) s) := by
    intro s
    unfold truthyValues
    refine filterMap_recordsOf_mid _ pre post _ _ hsen ?_ s
    show truthyVal (nullified r).value = truthyVal r.value
    simp [nullified, truthyVal, hv]
  unfold detect_correlations inverse_correlation_part soil_part
  simp only [hname, hby, htv]

lemma bucket_mid (P R : List SampleRec) (x y : SampleRec) (hx : x.hour = y.hour)
    (hxy : truthyVal x.value = truthyVal y.value) (p : ℕ → Bool) :
    bucket (P ++ x :: R) p = bucket (P ++ y :: R) p := by
  unfold bucket
  have hmid : (if p x.hour then truthyVal x.value else none)
      = (if p y.hour then truthyVal y.value else none) := by
    rw [hx, hxy]
  simp only [List.filterMap_append, List.filterMap_cons, hmid]

lemma detect_daily_pattern_mid (s' : String) (P R : List SampleRec) (x y : SampleRec)
    (hx : x.hour = y.hour) (hxy : truthyVal x.value = truthyVal y.value) :
    detect_daily_pattern s' (P ++ x :: R) = detect_daily_pattern s' (P ++ y :: R) := by
  unfold detect_daily_pattern
  rw [bucket_mid P R x y hx hxy morningHour, bucket_mid P R x y hx hxy afternoonHour]

lemma bucket_eq_nil (data : List SampleRec) (p : ℕ → Bool)
    (h : ∀ d ∈ data, truthyVal d.value = none) : bucket data p = [] := by
  unfold bucket
  rw [List.filterMap_eq_nil]
  intro d hd
  rw [h d hd]
  exact ite_self none

lemma detect_daily_pattern_none (s' : String) (data : List SampleRec)
    (hm : bucket data morningHour = []) : detect_daily_pattern s' data = none := by
  simp [detect_daily_pattern, hm]

/-- Nulling a 0-valued record cannot change a sensor's daily-pattern entry:
the buckets drop both, and when the 0 was the only non-null value the freshly
skipped sensor had no pattern anyway (every bucket empty). -/
lemma patternEntry_nullified (pre post : List SampleRec) (r : SampleRec)
    (hv : r.value = some 0) (s : String) :
    patternEntry (pre ++ nullified r :: post) s = patternEntry (pre ++ r :: post) s := by
  have hsen : (nullified r).sensor_type = r.sensor_type := rfl
  have htv : truthyVal (nullified r).value = truthyVal r.value := by
    simp [nullified, truthyVal, hv]
  have hhour : (nullified r).hour = r.hour := rfl
  unfold patternEntry
  rw [recordsOf_append, recordsOf_append, recordsOf_cons, recordsOf_cons, hsen]
  by_cases hcs : r.sensor_type == s
  · rw [if_pos hcs, if_pos hcs]
    set P := recordsOf pre s with hP
    set R := recordsOf post s with hR
    have hnrv : (nullified r).value = none := rfl
    have hfm1 : (P ++ nullified r :: R).filterMap (fun d => d.value)
        = P.filterMap (fun d => d.value) ++ R.filterMap (fun d => d.value) := by
      rw [List.filterMap_append, List.filterMap_cons, hnrv]
    have hfm0 : (P ++ r :: R).filterMap (fun d => d.value)
        = P.filterMap (fun d => d.value) ++ 0 :: R.filterMap (fun d => d.value) := by
      rw [List.filterMap_append, List.filterMap_cons, hv]
    have hlen : (P ++ nullified r :: R).length = (P ++ r :: R).length := by simp
    have hv0ne : (P ++ r :: R).filterMap (fun d => d.value) ≠ [] := by
      rw [hfm0]
      intro hc
      obtain ⟨-, hc2⟩ := List.append_eq_nil.mp hc
      exact List.cons_ne_nil _ _ hc2
    by_cases hvals : (P ++ R).filterMap (fun d => d.value) = []
    · have hPR := List.append_eq_nil.mp (by rwa [List.filterMap_append] at hvals)
      have hv1 : (P ++ nullified r :: R).filterMap (fun d => d.value) = [] := by
        rw [hfm1, hPR.1, hPR.2]
        rfl
      rw [if_neg (fun hg => hg.2 hv1)]
      by_cases h2 : 2 ≤ (P ++ r :: R).length
      · rw [if_pos ⟨h2, hv0ne⟩]
        have hall : ∀ d ∈ P ++ r :: R, truthyVal d.value = none := by
          intro d hd
          rcases List.mem_append.mp hd with hd | hd
          · rw [List.filterMap_eq_nil.mp hPR.1 d hd]
            rfl
          · rcases List.mem_cons.mp hd with rfl | hd
            · rw [hv]
              exact truthyVal_zero
            · rw [List.filterMap_eq_nil.mp hPR.2 d hd]
              rfl
        rw [detect_daily_pattern_none s _ (bucket_eq_nil _ _ hall)]
      · rw [if_neg (fun hg => h2 hg.1)]
    · have hv1ne : (P ++ nullified r :: R).filterMap (fun d => d.value) ≠ [] := by
        rw [hfm1]
        intro hc
        exact hvals (by rw [List.filterMap_append]; exact hc)
      by_cases h2 : 2 ≤ (P ++ r :: R).length
      · rw [if_pos ⟨by rw [hlen]; exact h2, hv1ne⟩, if_pos ⟨h2, hv0ne⟩]
        exact detect_daily_pattern_mid s P R (nullified r) r hhour htv
      · rw [if_neg (fun hg => h2 (hlen ▸ hg.1)), if_neg (fun hg => h2 hg.1)]
  · rw [if_neg hcs, if_neg hcs]

lemma round2_intCast (n : ℤ) : round2 (n : ℚ) = n := by
  unfold round2
  rw [show ((n : ℚ) * 100) = ((n * 100 : ℤ) : ℚ) by push_cast; ring, pyround_intCast]
  push_cast
  ring

/-- Concrete window with a genuine 0 reading at hour 1. -/
def zeroWindow : List SampleRec :=
  [⟨"temperature", 0, some 10⟩, ⟨"temperature", 1, some 0⟩, ⟨"temperature", 2, some 4⟩]

/-- The same window with the 0 reading nulled. -/
def nullWindow : List SampleRec :=
  [⟨"temperature", 0, some 10⟩, ⟨"temperature", 1, none⟩, ⟨"temperature", 2, some 4⟩]

lemma mean_zw : mean [10, 0, 4] = 14/3 := by
  norm_num [mean]

lemma svar_zw : svar [10, 0, 4] = 76/3 := by
  norm_num [svar, mean_zw]

lemma detect_anomaly_zw :
    detect_anomaly "temperature" [10, 0, 4] = some ⟨"temperature", "sudden_change"⟩ := by
  simp only [detect_anomaly]
  rw [if_neg (by norm_num)]
  have hf1 : List.find? (fun v => decide (0 < svar [10, 0, 4]
      ∧ 4 * svar [10, 0, 4] < (v - mean [10, 0, 4])^2)) [10, 0, 4] = none := by
    rw [List.find?_eq_none]
    intro x hx
    fin_cases hx <;> simp [svar_zw, mean_zw] <;> norm_num
  have hf2 : List.find? (fun pr => decide (pr.1 ≠ 0 ∧ 50 < |(pr.2 - pr.1) / pr.1 * 100|))
      (([10, 0, 4] : List ℚ).zip ([10, 0, 4] : List ℚ).tail) = some (10, 0) := by
    rw [show ([10, 0, 4] : List ℚ).zip ([10, 0, 4] : List ℚ).tail = [(10, 0), (0, 4)] from rfl]
    refine List.find?_cons_of_pos _ ?_
    simp only [decide_eq_true_eq]
    norm_num
  simp only [hf1, hf2]

lemma detect_anomaly_nw : detect_anomaly "temperature" [10, 4] = none := by
  simp only [detect_anomaly]
  rw [if_pos (by norm_num)]

lemma anomalies_zeroWindow :
    (analyze_daily_patterns zeroWindow).anomalies = [⟨"temperature", "sudden_change"⟩] := by
  have h1 : (analyze_daily_patterns zeroWindow).anomalies
      = (firstKeys (zeroWindow.map (fun d => d.sensor_type))).filterMap
          (anomalyEntry zeroWindow) := by
    simp [analyze_daily_patterns, zeroWindow]
  rw [h1, show firstKeys (zeroWindow.map (fun d => d.sensor_type)) = ["temperature"] from rfl]
  have hae : anomalyEntry zeroWindow "temperature" = some ⟨"temperature", "sudden_change"⟩ := by
    unfold anomalyEntry
    rw [if_pos (by decide)]
    rw [show (recordsOf zeroWindow "temperature").filterMap (fun d => d.value)
        = [10, 0, 4] from rfl]
    exact detect_anomaly_zw
  simp [List.filterMap_cons, hae]

lemma anomalies_nullWindow : (analyze_daily_patterns nullWindow).anomalies = [] := by
  have h1 : (analyze_daily_patterns nullWindow).anomalies
      = (firstKeys (nullWindow.map (fun d => d.sensor_type))).filterMap
          (anomalyEntry nullWindow) := by
    simp [analyze_daily_patterns, nullWindow]
  rw [h1, show firstKeys (nullWindow.map (fun d => d.sensor_type)) = ["temperature"] from rfl]
  have hae : anomalyEntry nullWindow "temperature" = none := by
    unfold anomalyEntry
    rw [if_pos (by decide)]
    rw [show (recordsOf nullWindow "temperature").filterMap (fun d => d.value)
        = [10, 4] from rfl]
    exact detect_anomaly_nw
  simp [List.filterMap_cons, hae]

lemma min_zeroWindow : (sensorStats (recordsOf zeroWindow "temperature")).min = 0 := by
  show round2 (listMin ((recordsOf zeroWindow "temperature").filterMap (fun d => d.value))) = 0
  rw [show (recordsOf zeroWindow "temperature").filterMap (fun d => d.value)
      = [10, 0, 4] from rfl]
  rw [show listMin [10, 0, 4] = 0 by norm_num [listMin, min_def]]
  rw [show (0 : ℚ) = ((0 : ℤ) : ℚ) by norm_num, round2_intCast]

lemma min_nullWindow : (sensorStats (recordsOf nullWindow "temperature")).min = 4 := by
  show round2 (listMin ((recordsOf nullWindow "temperature").filterMap (fun d => d.value))) = 4
  rw [show (recordsOf nullWindow "temperature").filterMap (fun d => d.value)
      = [10, 4] from rfl]
  rw [show listMin [10, 4] = 4 by norm_num [listMin, min_def]]
  rw [show (4 : ℚ) = ((4 : ℤ) : ℚ) by norm_num, round2_intCast]

lemma patterns_nullified (pre post : List SampleRec) (r : SampleRec) (hv : r.value = some 0) :
    (analyze_daily_patterns (pre ++ nullified r :: post)).patterns
      = (analyze_daily_patterns (pre ++ r :: post)).patterns := by
  have hne1 : pre ++ nullified r :: post ≠ [] := by simp
  have hne0 : pre ++ r :: post ≠ [] := by simp
  have hp1 : (analyze_daily_patterns (pre ++ nullified r :: post)).patterns
      = (firstKeys ((pre ++ nullified r :: post).map (fun d => d.sensor_type))).filterMap
          (patternEntry (pre ++ nullified r :: post)) := by
    simp [analyze_daily_patterns, hne1]
  have hp0 : (analyze_daily_patterns (pre ++ r :: post)).patterns
      = (firstKeys ((pre ++ r :: post).map (fun d => d.sensor_type))).filterMap
          (patternEntry (pre ++ r :: post)) := by
    simp [analyze_daily_patterns, hne0]
  have hname : (pre ++ nullified r :: post).map (fun d => d.sensor_type)
      = (pre ++ r :: post).map (fun d => d.sensor_type) := by
    simp [nullified]
  rw [hp1, hp0, hname]
  exact filterMap_congr2 _ _ _ (fun s _ => patternEntry_nullified pre post r hv s)

lemma correlations_nullified (pre post : List SampleRec) (r : SampleRec)
    (hv : r.value = some 0) :
    (analyze_daily_patterns (pre ++ nullified r :: post)).correlations
      = (analyze_daily_patterns (pre ++ r :: post)).correlations := by
  have hne1 : pre ++ nullified r :: post ≠ [] := by simp
  have hne0 : pre ++ r :: post ≠ [] := by simp
  have hc1 : (analyze_daily_patterns (pre ++ nullified r :: post)).correlations
      = detect_correlations (pre ++ nullified r :: post) := by
    simp [analyze_daily_patterns, hne1]
  have hc0 : (analyze_daily_patterns (pre ++ r :: post)).correlations
      = detect_correlations (pre ++ r :: post) := by
    simp [analyze_daily_patterns, hne0]
  rw [hc1, hc0]
  exact detect_correlations_nullified pre post r hv

/-- C10 counterexample: two windows differing only in a genuine 0 reading
versus a null at hour 1.  Patterns and correlations are identical, but the
anomaly detector — whose value series, like the statistics, filters only
nulls — reports a `sudden_change` anomaly only in the 0-window, and the
statistics (`min`) differ; so the 0 is not treated as missing by every
detector, and the claimed consequence holds in the reversed direction. -/
theorem claim10_counterexample :
    zeroWindow = [⟨"temperature", 0, some 10⟩, ⟨"temperature", 1, some 0⟩,
      ⟨"temperature", 2, some 4⟩]
    ∧ nullWindow = [⟨"temperature", 0, some 10⟩, ⟨"temperature", 1, none⟩,
      ⟨"temperature", 2, some 4⟩]
    ∧ (analyze_daily_patterns zeroWindow).patterns
        = (analyze_daily_patterns nullWindow).patterns
    ∧ (analyze_daily_patterns zeroWindow).correlations
        = (analyze_daily_patterns nullWindow).correlations
    ∧ (analyze_daily_patterns zeroWindow).anomalies = [⟨"temperature", "sudden_change"⟩]
    ∧ (analyze_daily_patterns nullWindow).anomalies = []
    ∧ (sensorStats (recordsOf zeroWindow "temperature")).min
        ≠ (sensorStats (recordsOf nullWindow "temperature")).min := by
  refine ⟨rfl, rfl, by decide, by decide, anomalies_zeroWindow, anomalies_nullWindow, ?_⟩
  rw [min_zeroWindow, min_nullWindow]
  norm_num

/-- C10 (amended): a 0-valued sample enters the statistics value series and
the anomaly detector's value series (both filter only nulls), while the
daily-pattern buckets, the by-hour correlation series and the soil series
drop it (truthiness filters), and the peak/low sort keys map falsy values to
0 resp. +infinity; consequently two windows differing only in a 0-versus-null
reading always produce identical patterns and correlations, while their
statistics and anomalies can differ. -/
theorem claim10_zero_value_handling :
    (∀ (pre post : List SampleRec) (r : SampleRec), r.value = some 0 →
        (analyze_daily_patterns (pre ++ nullified r :: post)).patterns
          = (analyze_daily_patterns (pre ++ r :: post)).patterns
        ∧ (analyze_daily_patterns (pre ++ nullified r :: post)).correlations
          = (analyze_daily_patterns (pre ++ r :: post)).correlations)
    ∧ truthyVal (some 0) = none
    ∧ truthyVal none = none
    ∧ (∀ v : ℚ, v ≠ 0 → truthyVal (some v) = some v)
    ∧ (∀ (pre post : List SampleRec) (s : String) (h : ℕ),
        (pre ++ SampleRec.mk s h (some 0) :: post).filterMap (fun d => d.value)
          = pre.filterMap (fun d => d.value) ++ 0 :: post.filterMap (fun d => d.value))
    ∧ (∀ d : SampleRec, peakKey (nullified d) = 0 ∧ lowKey (nullified d) = none
        ∧ peakKey {d with value := some 0} = 0 ∧ lowKey {d with value := some 0} = none)
    ∧ (analyze_daily_patterns zeroWindow).anomalies
        ≠ (analyze_daily_patterns nullWindow).anomalies
    ∧ (sensorStats (recordsOf zeroWindow "temperature")).min
        ≠ (sensorStats (recordsOf nullWindow "temperature")).min := by
  refine ⟨fun pre post r hv =>
      ⟨patterns_nullified pre post r hv, correlations_nullified pre post r hv⟩,
    rfl, rfl, fun v hv => by simp [truthyVal, hv], ?_, ?_, ?_, ?_⟩
  · intro pre post s h
    rw [List.filterMap_append, List.filterMap_cons]
  · intro d
    refine ⟨rfl, rfl, ?_, ?_⟩
    · show (truthyVal (some 0)).getD 0 = 0
      rw [truthyVal_zero]
      rfl
    · show truthyVal (some 0) = none
      exact truthyVal_zero
  · rw [anomalies_zeroWindow, anomalies_nullWindow]
    simp
  · rw [min_zeroWindow, min_nullWindow]
    norm_num
